import Mathlib

/-
Verification of the install-pre-commit CLI scaffold
(src/scripts/install-pre-commit.ts).

The script parses process arguments with yargs, exposes four global
boolean flags (verbose, help, version, completion-script), binds a single
default command whose handler prints help, version information, a
completion script, or a greeting, and routes parse and validation
failures through a fail callback that logs diagnostics without
terminating the process.

The embedding below models the script faithfully: output is a list of
chunks written to standard output, each tagged with the logging level
that produced it (or none for a direct write); the process-wide
verbosity flag and the explicit exit calls are threaded explicitly.
The argument-resolution behaviour of the external yargs library, as
configured by the script (boolean flags with defaults false,
boolean-negation with negation text "no-", camel-case-expansion,
environment-variable sourcing enabled, demandCommand bounds 1 and 1),
is modelled where the script relies on it; each such definition says so
in its doc comment.
-/

namespace InstallPreCommit

/-- Script name constant from the source. -/
def SCRIPT_NAME : String := "install-pre-commit"

/-- Script version constant from the source. -/
def SCRIPT_VERSION : String := "v0.1.0"

/-- Copyright line constant from the source. -/
def SCRIPT_COPYRIGHT : String := "Copyright (c) 2026 G'lek Tarssza, all rights reserved"

/-- The four logging levels of the leveled logger. -/
inductive LogLevel where
  | error
  | warning
  | info
  | verbose
deriving DecidableEq, Repr

/-- One chunk written to standard output: the full text written
(including any trailing newline) tagged with the logging level that
produced it, or none for a direct write (help text, version lines,
completion script, raw stack trace). -/
structure Chunk where
  level : Option LogLevel
  text : String
deriving DecidableEq, Repr

/-- The resolved global options record: verbose, help, version,
completionScript, each a boolean defaulting to false. -/
structure GlobalOptions where
  verbose : Bool
  help : Bool
  version : Bool
  completionScript : Bool
deriving DecidableEq, Repr

/-- Joining a variadic data list with single spaces, as
Array.prototype.join with separator a single space does in the source
logging functions. -/
def joinData (data : List String) : String :=
  String.intercalate " " data

/-- writeLineStdoutSync: writes the message followed by exactly one
newline; modelled as producing the written text. -/
def writeLineStdoutSync (msg : String) : String :=
  msg ++ "\n"

/-- logError: one line, label [ERROR] (colorized unless noColor),
data joined with single spaces, one trailing newline. -/
def logError (noColor : Bool) (data : List String) : List Chunk :=
  let msg := joinData data
  if noColor then
    [⟨some LogLevel.error, writeLineStdoutSync ("[ERROR] " ++ msg)⟩]
  else
    [⟨some LogLevel.error, writeLineStdoutSync ("\x1B[38:5:196m[ERROR]\x1B[0m " ++ msg)⟩]

/-- logWarning: one line, label [WARN] (colorized unless noColor),
data joined with single spaces, one trailing newline. Defined in the
source but invoked nowhere. -/
def logWarning (noColor : Bool) (data : List String) : List Chunk :=
  let msg := joinData data
  if noColor then
    [⟨some LogLevel.warning, writeLineStdoutSync ("[WARN] " ++ msg)⟩]
  else
    [⟨some LogLevel.warning, writeLineStdoutSync ("\x1B[38:5:208m[WARN]\x1B[0m " ++ msg)⟩]

/-- logInfo: one line, label [INFO] (colorized unless noColor),
data joined with single spaces, one trailing newline. -/
def logInfo (noColor : Bool) (data : List String) : List Chunk :=
  let msg := joinData data
  if noColor then
    [⟨some LogLevel.info, writeLineStdoutSync ("[INFO] " ++ msg)⟩]
  else
    [⟨some LogLevel.info, writeLineStdoutSync ("\x1B[38:5:111m[INFO]\x1B[0m " ++ msg)⟩]

/-- logVerbose: returns immediately (no output at all) when the
process-wide verbosity state is false; otherwise one line, label
[VERBOSE] (colorized unless noColor), data joined with single spaces,
one trailing newline. -/
def logVerbose (noColor : Bool) (verboseEnabled : Bool) (data : List String) : List Chunk :=
  if !verboseEnabled then
    []
  else
    let msg := joinData data
    if noColor then
      [⟨some LogLevel.verbose, writeLineStdoutSync ("[VERBOSE] " ++ msg)⟩]
    else
      [⟨some LogLevel.verbose, writeLineStdoutSync ("\x1B[38:5:141m[VERBOSE]\x1B[0m " ++ msg)⟩]

/-- Value a single command-line token contributes to a boolean flag.
Modelled from the yargs-parser configuration used by the script:
boolean-negation is enabled with negation text "no-", so the negated
long form resolves to false; the long form and any alias resolve to
true. -/
def flagTokenValue (pos : List String) (neg : String) (tok : String) : Option Bool :=
  if pos.contains tok then some true
  else if tok = neg then some false
  else none

/-- Last occurrence of a boolean flag in the argument list, later
tokens overriding earlier ones, as the configured yargs-parser does for
boolean options. -/
def lastFlagValue (pos : List String) (neg : String) (args : List String) : Option Bool :=
  args.foldl
    (fun acc t =>
      match flagTokenValue pos neg t with
      | some b => some b
      | none => acc)
    none

/-- Environment lookup: the environment is a finite association list
from variable names to values. -/
def envLookup (env : List (String × String)) (k : String) : Option String :=
  (env.find? (fun p => p.1 = k)).map (fun p => p.2)

/-- Value an environment variable contributes to a boolean option.
Modelled from yargs env(true) sourcing: a set variable yields the
boolean reading of its value. -/
def envBool (env : List (String × String)) (k : String) : Option Bool :=
  (envLookup env k).map (fun v => v != "false")

/-- Resolution of one boolean option, modelled from the configured
yargs precedence: command-line tokens override environment variables,
which override the declared default of false. -/
def resolveFlag (pos : List String) (neg : String) (envKey : String)
    (args : List String) (env : List (String × String)) : Bool :=
  match lastFlagValue pos neg args with
  | some b => b
  | none =>
    match envBool env envKey with
    | some b => b
    | none => false

/-- Resolution of the whole Global Options record from the raw
argument list and the process environment, per the CLI_OPTIONS schema:
verbose (alias -v), help (alias -h), version, completion-script (the
dashed name camel-case-expanded to completionScript), all boolean with
default false, all negatable, all sourceable from the environment. -/
def parseGlobalOptions (args : List String) (env : List (String × String)) : GlobalOptions :=
  { verbose := resolveFlag ["--verbose", "-v"] "--no-verbose" "VERBOSE" args env
    help := resolveFlag ["--help", "-h"] "--no-help" "HELP" args env
    version := resolveFlag ["--version"] "--no-version" "VERSION" args env
    completionScript :=
      resolveFlag ["--completion-script"] "--no-completion-script" "COMPLETION_SCRIPT" args env }

/-- A token is an option token when its first character is a dash;
otherwise it is a positional, which yargs counts as a top-level
command. -/
def isOptionToken (s : String) : Bool :=
  s.data.head? == some (Char.ofNat 45)

/-- Number of explicit top-level commands in the argument list: the
positional (non-option) tokens. -/
def commandCount (args : List String) : Nat :=
  (args.filter (fun s => !isOptionToken s)).length

/-- demandCommand validation, modelled from yargs: with bounds min and
max, fewer positionals than min fails with the first message, more than
max fails with the second, otherwise validation passes. -/
def demandCommandCheck (minCmds maxCmds : Nat) (minMsg maxMsg : String)
    (count : Nat) : Option String :=
  if count < minCmds then some minMsg
  else if count > maxCmds then some maxMsg
  else none

/-- The script installs demandCommand with bounds 1 and 1 and the two
messages below; this is that validation applied to an argument list. -/
def validateCommandCount (args : List String) : Option String :=
  demandCommandCheck 1 1
    "A command is required!"
    "At most one command can be used!"
    (commandCount args)

/-- Result of running the default command handler: the chunks written,
the explicit exit code if Deno.exit was called (none when the handler
completes without an explicit exit call), and the process-wide
verbosity state the handler set on entry. -/
structure HandlerResult where
  chunks : List Chunk
  exitCode : Option Nat
  verboseEnabled : Bool
deriving DecidableEq, Repr

/-- The default command handler. On entry it sets the process-wide
verbosity state from args.verbose. Then, in order: if help is set it
prints the generated help text (a value obtained from the yargs parser,
passed here as helpText) and exits 0; else if version is set it prints
the name and version line then the copyright line and exits 0; else if
completionScript is set it prints the completion script (a value
obtained from the yargs parser, passed here as completionText) and
exits 0; else it logs the info greeting and the verbose greeting. -/
def handler (noColor : Bool) (helpText completionText : String)
    (args : GlobalOptions) : HandlerResult :=
  let verboseEnabled := args.verbose
  if args.help then
    { chunks := [⟨none, writeLineStdoutSync helpText⟩]
      exitCode := some 0
      verboseEnabled := verboseEnabled }
  else if args.version then
    { chunks :=
        [⟨none, writeLineStdoutSync (SCRIPT_NAME ++ " " ++ SCRIPT_VERSION)⟩,
         ⟨none, writeLineStdoutSync SCRIPT_COPYRIGHT⟩]
      exitCode := some 0
      verboseEnabled := verboseEnabled }
  else if args.completionScript then
    { chunks := [⟨none, completionText⟩]
      exitCode := some 0
      verboseEnabled := verboseEnabled }
  else
    { chunks :=
        logInfo noColor ["Hello, world!"]
          ++ logVerbose noColor verboseEnabled ["Hello, world, verbosely!"]
      exitCode := none
      verboseEnabled := verboseEnabled }

/-- The error value handed to the fail callback: it may carry a stack
trace string. -/
structure ErrVal where
  stack : Option String
deriving DecidableEq, Repr

/-- Truthiness of error?.stack in the source: the stack is used only
when the error value is present, carries a stack, and that stack is a
non-empty string. -/
def errStackTruthy : Option ErrVal → Option String
  | some e =>
    match e.stack with
    | some st => if st = "" then none else some st
    | none => none
  | none => none

/-- The fail callback onFail: logs the fixed header, then the failure
message enclosed in double quotes, then either a line announcing the
stack trace followed by the raw stack trace, or a line stating no stack
trace is available. It returns its output; it performs no exit and can
raise nothing (it is a total function). -/
def onFail (noColor : Bool) (msg : String) (error : Option ErrVal) : List Chunk :=
  logError noColor ["Fatal error while running script!"]
    ++ logError noColor ["Error message: \"" ++ msg ++ "\""]
    ++ (match errStackTruthy error with
        | some st =>
          logError noColor ["Stack trace:"] ++ [⟨none, writeLineStdoutSync st⟩]
        | none => logError noColor ["No stack trace available!"])

/-- One run of the program, modelled from the yargs dispatch as
configured: exitProcess is disabled, so on a demandCommand validation
failure the fail callback runs with the validation message and no error
object and the handler is never invoked; otherwise the default command
handler runs on the resolved Global Options. The result is the output
chunks and the explicit exit code, if any. -/
def runProgram (noColor : Bool) (helpText completionText : String)
    (args : List String) (env : List (String × String)) : List Chunk × Option Nat :=
  match validateCommandCount args with
  | some msg => (onFail noColor msg none, none)
  | none =>
    let opts := parseGlobalOptions args env
    let r := handler noColor helpText completionText opts
    (r.chunks, r.exitCode)

/-- C1: every argument list with zero explicit top-level commands fails
validation with the message "A command is required!"; every argument
list with two or more explicit top-level commands fails validation with
the message "At most one command can be used!"; the two messages are
distinct. -/
theorem demand_command_messages (args : List String) :
    (commandCount args = 0 →
      validateCommandCount args = some "A command is required!") ∧
    (2 ≤ commandCount args →
      validateCommandCount args = some "At most one command can be used!") ∧
    ("A command is required!" : String) ≠ "At most one command can be used!" := by
  refine ⟨?_, ?_, by decide⟩
  · intro h
    simp [validateCommandCount, demandCommandCheck, h]
  · intro h
    have h0 : ¬ commandCount args < 1 := by omega
    have h1 : commandCount args > 1 := by omega
    simp [validateCommandCount, demandCommandCheck, h0, h1]

/-- Witness for C1: the empty argument list has zero commands and
fails with the first message; a two-positional argument list fails with
the second. -/
theorem demand_command_messages_witness :
    validateCommandCount [] = some "A command is required!" ∧
    validateCommandCount ["a", "b"] = some "At most one command can be used!" :=
  ⟨(demand_command_messages []).1 rfl,
   (demand_command_messages ["a", "b"]).2.1 (by decide)⟩

/-- C7: calling the verbose-level logging operation while the
process-wide verbosity state is false produces no output at all,
whatever the color mode and whatever data is passed. -/
theorem logVerbose_disabled_is_noop (noColor : Bool) (data : List String) :
    logVerbose noColor false data = [] := by
  simp [logVerbose]

/-- C9: for every logging level (error, warning, info, and verbose with
verbosity enabled) and every data list, the emitted output is exactly
one line consisting of the level's fixed label, the values joined with
single spaces, and exactly one trailing newline, in both the plain and
the colorized rendering. -/
theorem log_levels_label_join_newline (data : List String) :
    logError true data =
      [⟨some LogLevel.error, ("[ERROR] " ++ joinData data) ++ "\n"⟩] ∧
    logWarning true data =
      [⟨some LogLevel.warning, ("[WARN] " ++ joinData data) ++ "\n"⟩] ∧
    logInfo true data =
      [⟨some LogLevel.info, ("[INFO] " ++ joinData data) ++ "\n"⟩] ∧
    logVerbose true true data =
      [⟨some LogLevel.verbose, ("[VERBOSE] " ++ joinData data) ++ "\n"⟩] ∧
    logError false data =
      [⟨some LogLevel.error, ("\x1B[38:5:196m[ERROR]\x1B[0m " ++ joinData data) ++ "\n"⟩] ∧
    logWarning false data =
      [⟨some LogLevel.warning, ("\x1B[38:5:208m[WARN]\x1B[0m " ++ joinData data) ++ "\n"⟩] ∧
    logInfo false data =
      [⟨some LogLevel.info, ("\x1B[38:5:111m[INFO]\x1B[0m " ++ joinData data) ++ "\n"⟩] ∧
    logVerbose false true data =
      [⟨some LogLevel.verbose, ("\x1B[38:5:141m[VERBOSE]\x1B[0m " ++ joinData data) ++ "\n"⟩] :=
  ⟨rfl, rfl, rfl, rfl, rfl, rfl, rfl, rfl⟩

/-- C2: the default command handler evaluates its branches in the
fixed priority order help, version, completionScript, greeting. With
help set it prints the generated help text and exits 0, regardless of
the other flags; with help unset and version set it prints the version
lines and exits 0, regardless of completionScript; with only
completionScript set it prints the completion script and exits 0; with
none set it logs the greeting lines and completes with no explicit
exit call. In every branch the verbosity state is set first from the
verbose flag. -/
theorem handler_branch_priority (noColor : Bool) (helpText completionText : String)
    (v ver cs : Bool) :
    handler noColor helpText completionText ⟨v, true, ver, cs⟩ =
      ⟨[⟨none, helpText ++ "\n"⟩], some 0, v⟩ ∧
    handler noColor helpText completionText ⟨v, false, true, cs⟩ =
      ⟨[⟨none, (SCRIPT_NAME ++ " " ++ SCRIPT_VERSION) ++ "\n"⟩,
        ⟨none, SCRIPT_COPYRIGHT ++ "\n"⟩], some 0, v⟩ ∧
    handler noColor helpText completionText ⟨v, false, false, true⟩ =
      ⟨[⟨none, completionText⟩], some 0, v⟩ ∧
    (handler noColor helpText completionText ⟨v, false, false, false⟩).exitCode = none ∧
    (handler noColor helpText completionText ⟨v, false, false, false⟩).chunks.map
        (fun ch => ch.level) =
      some LogLevel.info :: (if v then [some LogLevel.verbose] else []) ∧
    (handler noColor helpText completionText ⟨v, false, false, false⟩).verboseEnabled = v := by
  refine ⟨rfl, rfl, rfl, rfl, ?_, rfl⟩
  cases v <;> cases noColor <;> rfl

/-- C3: when the version flag is set and help is not, the handler's
output is exactly the line consisting of the script name, a space and
the script version — concretely "install-pre-commit v0.1.0" — followed
by the copyright line, each newline-terminated, and the process exits
with code 0. -/
theorem version_flag_output (noColor : Bool) (helpText completionText : String)
    (v cs : Bool) :
    (handler noColor helpText completionText ⟨v, false, true, cs⟩).chunks.map
        (fun ch => ch.text) =
      ["install-pre-commit v0.1.0\n", SCRIPT_COPYRIGHT ++ "\n"] ∧
    (handler noColor helpText completionText ⟨v, false, true, cs⟩).exitCode = some 0 ∧
    SCRIPT_NAME ++ " " ++ SCRIPT_VERSION = "install-pre-commit v0.1.0" :=
  ⟨rfl, rfl, rfl⟩

/-- C6: in a run whose arguments pass command-count validation, when
the parsed options set no flags the program's output is exactly one
info-level greeting line; when they set only verbose, the output is
exactly the info-level greeting line followed by one verbose-level
greeting line, in that order. -/
theorem greeting_line_output (noColor : Bool) (helpText completionText : String)
    (args : List String) (env : List (String × String)) :
    (validateCommandCount args = none →
      parseGlobalOptions args env = ⟨false, false, false, false⟩ →
      (runProgram noColor helpText completionText args env).1 =
        [⟨some LogLevel.info,
          if noColor then "[INFO] Hello, world!\n"
          else "\x1B[38:5:111m[INFO]\x1B[0m Hello, world!\n"⟩]) ∧
    (validateCommandCount args = none →
      parseGlobalOptions args env = ⟨true, false, false, false⟩ →
      (runProgram noColor helpText completionText args env).1 =
        [⟨some LogLevel.info,
          if noColor then "[INFO] Hello, world!\n"
          else "\x1B[38:5:111m[INFO]\x1B[0m Hello, world!\n"⟩,
         ⟨some LogLevel.verbose,
          if noColor then "[VERBOSE] Hello, world, verbosely!\n"
          else "\x1B[38:5:141m[VERBOSE]\x1B[0m Hello, world, verbosely!\n"⟩]) := by
  constructor
  · intro h1 h2
    simp [runProgram, h1, h2, handler, logInfo, logVerbose, joinData, writeLineStdoutSync]
    cases noColor <;> rfl
  · intro h1 h2
    simp [runProgram, h1, h2, handler, logInfo, logVerbose, joinData, writeLineStdoutSync]
    cases noColor <;> rfl

/-- Witness for C6: a run with one positional and no flags greets once
at info level; adding only the verbose flag appends the verbose
greeting. -/
theorem greeting_line_output_witness :
    (runProgram true "h" "c" ["install"] []).1 =
      [⟨some LogLevel.info, "[INFO] Hello, world!\n"⟩] ∧
    (runProgram true "h" "c" ["install", "--verbose"] []).1 =
      [⟨some LogLevel.info, "[INFO] Hello, world!\n"⟩,
       ⟨some LogLevel.verbose, "[VERBOSE] Hello, world, verbosely!\n"⟩] :=
  ⟨(greeting_line_output true "h" "c" ["install"] []).1 rfl rfl,
   (greeting_line_output true "h" "c" ["install", "--verbose"] []).2 rfl rfl⟩

/-- C4: appending the verbose flag to any argument list resolves the
verbose field of Global Options to true, and appending its negated form
resolves it to false, overriding the default of false and any
environment setting in both cases. -/
theorem verbose_negation_resolution (args : List String) (env : List (String × String)) :
    (parseGlobalOptions (args ++ ["--verbose"]) env).verbose = true ∧
    (parseGlobalOptions (args ++ ["--no-verbose"]) env).verbose = false := by
  constructor <;>
    simp [parseGlobalOptions, resolveFlag, lastFlagValue, List.foldl_append, flagTokenValue]

/-- C8: on a parse or validation failure the fail callback emits
exactly the fixed header line, the failure message enclosed in double
quotes, and then either a line announcing the stack trace followed by
the raw stack trace (when the error value carries a non-empty stack) or
a line stating no stack trace is available (when there is no error
value, no stack, or an empty stack); it performs no process exit and is
a total function, so it never raises. -/
theorem fail_handler_output (msg st : String) (h : st ≠ "") :
    onFail true msg (some ⟨some st⟩) =
      [⟨some LogLevel.error, "[ERROR] Fatal error while running script!\n"⟩,
       ⟨some LogLevel.error, "[ERROR] " ++ ("Error message: \"" ++ msg ++ "\"") ++ "\n"⟩,
       ⟨some LogLevel.error, "[ERROR] Stack trace:\n"⟩,
       ⟨none, st ++ "\n"⟩] ∧
    onFail true msg none =
      [⟨some LogLevel.error, "[ERROR] Fatal error while running script!\n"⟩,
       ⟨some LogLevel.error, "[ERROR] " ++ ("Error message: \"" ++ msg ++ "\"") ++ "\n"⟩,
       ⟨some LogLevel.error, "[ERROR] No stack trace available!\n"⟩] ∧
    onFail true msg (some ⟨none⟩) =
      [⟨some LogLevel.error, "[ERROR] Fatal error while running script!\n"⟩,
       ⟨some LogLevel.error, "[ERROR] " ++ ("Error message: \"" ++ msg ++ "\"") ++ "\n"⟩,
       ⟨some LogLevel.error, "[ERROR] No stack trace available!\n"⟩] := by
  refine ⟨?_, rfl, rfl⟩
  unfold onFail
  rw [show errStackTruthy (some ⟨some st⟩) = some st from by simp [errStackTruthy, h]]
  rfl

/-- Witness for C8: the fail callback applied to a concrete message
and a concrete non-empty stack trace. -/
theorem fail_handler_output_witness :
    onFail true "boom" (some ⟨some "trace"⟩) =
      [⟨some LogLevel.error, "[ERROR] Fatal error while running script!\n"⟩,
       ⟨some LogLevel.error, "[ERROR] Error message: \"boom\"\n"⟩,
       ⟨some LogLevel.error, "[ERROR] Stack trace:\n"⟩,
       ⟨none, "trace\n"⟩] :=
  (fail_handler_output "boom" "trace" (by decide)).1

/-- Counterexample for C5: the claim that identical raw argument lists
always resolve to identical Global Options is false, because
environment-variable sourcing is enabled: the empty argument list
resolves verbose to false under an empty environment but to true when
the VERBOSE environment variable is set. -/
theorem parse_env_dependence_counterexample :
    parseGlobalOptions [] [] ≠ parseGlobalOptions [] [("VERBOSE", "true")] := by
  decide

/-- C5 amended: parsing has no hidden state beyond its declared
inputs — given identical raw arguments and environments that agree on
every variable lookup, the resolved Global Options values are
identical. -/
theorem parse_deterministic_given_args_env (args : List String)
    (env₁ env₂ : List (String × String))
    (h : ∀ k, envLookup env₁ k = envLookup env₂ k) :
    parseGlobalOptions args env₁ = parseGlobalOptions args env₂ := by
  simp [parseGlobalOptions, resolveFlag, envBool, h]

/-- Witness for the amended C5: two syntactically different
environments with identical lookups yield identical Global Options on
the same argument list. -/
theorem parse_deterministic_given_args_env_witness :
    parseGlobalOptions ["--verbose"] [("VERBOSE", "1")] =
      parseGlobalOptions ["--verbose"] [("VERBOSE", "1"), ("VERBOSE", "2")] :=
  parse_deterministic_given_args_env ["--verbose"]
    [("VERBOSE", "1")] [("VERBOSE", "1"), ("VERBOSE", "2")]
    (fun k => by
      by_cases h : ("VERBOSE" : String) = k <;> simp [envLookup, h])

/-- A chunk list contains no warning-level line. -/
def noWarnChunks (cs : List Chunk) : Bool :=
  cs.all (fun ch => ch.level != some LogLevel.warning)

/-- The error logger never produces a warning-level chunk. -/
theorem logError_no_warning (nc : Bool) (data : List String) :
    noWarnChunks (logError nc data) = true := by
  cases nc <;> rfl

/-- The fail callback never produces a warning-level chunk. -/
theorem onFail_no_warning (nc : Bool) (msg : String) (err : Option ErrVal) :
    noWarnChunks (onFail nc msg err) = true := by
  rcases err with _ | ⟨st⟩
  · cases nc <;> rfl
  · rcases st with _ | st
    · cases nc <;> rfl
    · by_cases h : st = "" <;> cases nc <;>
        simp [onFail, errStackTruthy, noWarnChunks, logError, h]

/-- The default command handler never produces a warning-level chunk. -/
theorem handler_no_warning (nc : Bool) (helpText completionText : String)
    (opts : GlobalOptions) :
    noWarnChunks (handler nc helpText completionText opts).chunks = true := by
  rcases opts with ⟨v, hf, vf, cf⟩
  cases hf <;> cases vf <;> cases cf <;> cases v <;> cases nc <;> rfl

/-- C10: in every run of the program — whatever the arguments, the
environment, the color mode and the parser-supplied texts — no
warning-level line is ever emitted, neither on the handler path nor on
the failure path; the warning logger is defined but unreachable. -/
theorem no_warning_ever_emitted (nc : Bool) (helpText completionText : String)
    (args : List String) (env : List (String × String)) :
    noWarnChunks (runProgram nc helpText completionText args env).1 = true := by
  rcases hv : validateCommandCount args with _ | msg
  · simp only [runProgram, hv]
    exact handler_no_warning nc helpText completionText (parseGlobalOptions args env)
  · simp only [runProgram, hv]
    exact onFail_no_warning nc msg none

end InstallPreCommit
